import Mathlib

/-!
Verification of the MCP server connection / capability-negotiation layer of the
`06-agents-mcps` module: the `MCPServerManager` (servers/index.ts), the three
server initializers (weather-mcp-server.ts, air-quality-mcp-server.ts,
context7-mcp-server.ts), the capability resolution in agent-config.ts /
agent-factory.ts / chat-interface.ts, the instruction templates
(agent/instructions.ts) and the direct weather / air-quality tools
(tools/index.ts, tools/air-quality-tool.ts).

JavaScript `Map<string, V>` objects are embedded as association lists in
insertion order (`Map.set` replaces in place, or appends when absent; `Map.get`
returns the first — unique — binding).  `Date` values are embedded as natural
number timestamps supplied by the caller.  Thrown JS exceptions are embedded
explicitly: a fallible operation returns `Except String _`, and the behaviour
of an external connect / disconnect primitive is an explicit outcome value.
-/

namespace AgentsWS

/-- `Map.set m k v`: replace the binding of `k` in place when present, append
otherwise (JS `Map` insertion-order semantics). -/
def mapSet {α : Type} (m : List (String × α)) (k : String) (v : α) :
    List (String × α) :=
  if m.any (fun p => p.1 = k) then
    m.map (fun p => if p.1 = k then (k, v) else p)
  else m ++ [(k, v)]

/-- `Map.get m k`: the value bound to `k`, when present. -/
def mapGet {α : Type} (m : List (String × α)) (k : String) : Option α :=
  (m.find? (fun p => p.1 = k)).map Prod.snd

/-- The `MCPServerStatus` record of types/index.ts: per-server connection
status tracked by the manager.  Optional fields are `Option`s. -/
structure MCPServerStatus where
  name : String
  connected : Bool
  capabilities : Option (List String) := none
  lastConnected : Option Nat := none
  lastError : Option String := none
deriving Repr, DecidableEq

/-- The value an initializer resolves with on its non-throwing path:
`{ server, connected, error? }` together with the two fields the manager reads
off `result.server.getStatus()` (its `name` and `capabilities`). -/
structure InitResult where
  statusName : String
  statusCaps : Option (List String)
  connected : Bool
  error : Option String
deriving Repr, DecidableEq

/-- Behaviour of one initializer call: it either resolves with an
`InitResult` or throws with an error message. -/
inductive InitOutcome where
  | ok : InitResult → InitOutcome
  | thrown : String → InitOutcome
deriving Repr, DecidableEq

/-- JS truthiness of a `string | undefined` value: defined and non-empty. -/
def truthy : Option String → Bool
  | some s => s ≠ ""
  | none => false

/-- The status record `initializeAll` / `initializeServer` store for a
provider whose initializer resolved with `r` at time `now`
(servers/index.ts, the `status` construction): `lastConnected` is set only on
success, `lastError` only when `result.error` is truthy. -/
def statusOfResult (now : Nat) (r : InitResult) : MCPServerStatus :=
  { name := r.statusName
    connected := r.connected
    capabilities := r.statusCaps
    lastConnected := if r.connected then some now else none
    lastError := if truthy r.error then r.error else none }

/-- The status record stored by the `catch` branch of
`initializeAll` / `initializeServer` when an initializer throws `msg`. -/
def statusOfThrown (name msg : String) : MCPServerStatus :=
  { name := name, connected := false, lastError := some msg }

/-- The `{ connected, failed, errors }` record returned by
`MCPServerManager.initializeAll`.  `errors` keeps insertion order. -/
structure InitAllResult where
  connected : List String
  failed : List String
  errors : List (String × String)
deriving Repr, DecidableEq

/-- `MCPServerManager.initializeAll` (servers/index.ts 42-90): iterate the
initializer map in registration order; each provider's result is recorded in
the status map and sorted into `connected` or `failed`; a thrown exception is
caught, recorded, and iteration continues.  The batch itself never throws
(the embedding is a total function). -/
def initializeAll (now : Nat) :
    List (String × InitOutcome) → List (String × MCPServerStatus) →
    InitAllResult × List (String × MCPServerStatus)
  | [], sts => ({ connected := [], failed := [], errors := [] }, sts)
  | (name, .ok r) :: rest, sts =>
    let sts1 := mapSet sts name (statusOfResult now r)
    let out := initializeAll now rest sts1
    if r.connected then
      ({ out.1 with connected := name :: out.1.connected }, out.2)
    else
      ({ out.1 with
          failed := name :: out.1.failed
          errors :=
            match r.error with
            | some e => if e = "" then out.1.errors else (name, e) :: out.1.errors
            | none => out.1.errors }, out.2)
  | (name, .thrown msg) :: rest, sts =>
    let sts1 := mapSet sts name (statusOfThrown name msg)
    let out := initializeAll now rest sts1
    ({ out.1 with
        failed := name :: out.1.failed
        errors := (name, msg) :: out.1.errors }, out.2)

/-- The `connected` list of a batch, entry by entry. -/
theorem initializeAll_connected (now : Nat) (inits : List (String × InitOutcome))
    (sts : List (String × MCPServerStatus)) :
    (initializeAll now inits sts).1.connected =
      (inits.filter (fun p =>
        match p.2 with
        | .ok r => r.connected
        | .thrown _ => false)).map Prod.fst := by
  induction inits generalizing sts with
  | nil => rfl
  | cons hd tl ih =>
    obtain ⟨name, outcome⟩ := hd
    cases outcome with
    | ok r =>
      by_cases hc : r.connected <;>
        simp [initializeAll, hc, ih, List.filter_cons]
    | thrown msg =>
      simp [initializeAll, ih, List.filter_cons]

/-- The `failed` list of a batch, entry by entry. -/
theorem initializeAll_failed (now : Nat) (inits : List (String × InitOutcome))
    (sts : List (String × MCPServerStatus)) :
    (initializeAll now inits sts).1.failed =
      (inits.filter (fun p =>
        match p.2 with
        | .ok r => !r.connected
        | .thrown _ => true)).map Prod.fst := by
  induction inits generalizing sts with
  | nil => rfl
  | cons hd tl ih =>
    obtain ⟨name, outcome⟩ := hd
    cases outcome with
    | ok r =>
      by_cases hc : r.connected <;>
        simp [initializeAll, hc, ih, List.filter_cons]
    | thrown msg =>
      simp [initializeAll, ih, List.filter_cons]

/-- C1.  `initializeAll` is fail-soft: the batch is a total function (no
exception escapes, thrown initializers are absorbed into `failed`), every
registered provider name ends up in exactly one of `connected` / `failed`
(the two lists partition the registration list, counted with multiplicity),
and both lists respect registration order (each is a sublist of the
registration sequence); in particular a failing or throwing provider never
prevents the later providers from being attempted and classified. -/
theorem initializeAll_fail_soft :
    (∀ (now : Nat) (inits : List (String × InitOutcome))
        (sts : List (String × MCPServerStatus)) (n : String),
      ((initializeAll now inits sts).1.connected.count n) +
        ((initializeAll now inits sts).1.failed.count n) =
        ((inits.map Prod.fst).count n)) ∧
    (∀ (now : Nat) (inits : List (String × InitOutcome))
        (sts : List (String × MCPServerStatus)),
      List.Sublist (initializeAll now inits sts).1.connected (inits.map Prod.fst) ∧
      List.Sublist (initializeAll now inits sts).1.failed (inits.map Prod.fst)) := by
  constructor
  · intro now inits sts n
    induction inits generalizing sts with
    | nil => rfl
    | cons hd tl ih =>
      obtain ⟨name, outcome⟩ := hd
      cases outcome with
      | ok r =>
        by_cases hc : r.connected
        · have h := ih (mapSet sts name (statusOfResult now r))
          by_cases hn : name = n <;>
            simp [initializeAll, hc, List.count_cons, hn] at h ⊢ <;> omega
        · have h := ih (mapSet sts name (statusOfResult now r))
          by_cases hn : name = n <;>
            simp [initializeAll, hc, List.count_cons, hn] at h ⊢ <;> omega
      | thrown msg =>
        have h := ih (mapSet sts name (statusOfThrown name msg))
        by_cases hn : name = n <;>
          simp [initializeAll, List.count_cons, hn] at h ⊢ <;> omega
  · intro now inits sts
    induction inits generalizing sts with
    | nil => exact ⟨List.Sublist.refl _, List.Sublist.refl _⟩
    | cons hd tl ih =>
      obtain ⟨name, outcome⟩ := hd
      cases outcome with
      | ok r =>
        by_cases hc : r.connected
        · refine ⟨?_, ?_⟩
          · simpa [initializeAll, hc] using
              List.Sublist.cons₂ name (ih _).1
          · simpa [initializeAll, hc] using
              List.Sublist.cons name (ih _).2
        · refine ⟨?_, ?_⟩
          · simpa [initializeAll, hc] using
              List.Sublist.cons name (ih _).1
          · simpa [initializeAll, hc] using
              List.Sublist.cons₂ name (ih _).2
      | thrown msg =>
        refine ⟨?_, ?_⟩
        · simpa [initializeAll] using List.Sublist.cons name (ih _).1
        · simpa [initializeAll] using List.Sublist.cons₂ name (ih _).2

/-- Behaviour of one call of the external SDK connect primitive
(`MCPServerStdio.connect`): it resolves, or rejects with an error message. -/
inductive ConnectOutcome where
  | success
  | failure (msg : String)
deriving Repr, DecidableEq

/-- Whether a connect outcome is a success. -/
def ConnectOutcome.isSuccess : ConnectOutcome → Bool
  | .success => true
  | .failure _ => false

/-- Capability list declared by `WeatherMCPServer` (weather-mcp-server.ts 24). -/
def weatherCaps : List String := ["get_weather", "get_forecast"]

/-- Capability list declared by `AirQualityMCPServer`
(air-quality-mcp-server.ts 24). -/
def airQualityCaps : List String := ["get_air_quality", "get_aqi_forecast"]

/-- `initializeWeatherMCPServer` (weather-mcp-server.ts 172-195):
`WeatherMCPServer.initialize` catches any connect failure and returns `false`;
the initializer maps `false` to `{ connected: false, error: 'Failed to connect
to weather MCP server' }` and `true` to `{ connected: true }` with no error.
`sname` is the configured server name carried in the server's status. -/
def weatherInitializer (sname : String) (out : ConnectOutcome) : InitResult :=
  match out with
  | .success => ⟨sname, some weatherCaps, true, none⟩
  | .failure _ =>
    ⟨sname, some weatherCaps, false, some "Failed to connect to weather MCP server"⟩

/-- `initializeAirQualityMCPServer` (air-quality-mcp-server.ts 234-257),
identical shape to the weather initializer. -/
def airQualityInitializer (sname : String) (out : ConnectOutcome) : InitResult :=
  match out with
  | .success => ⟨sname, some airQualityCaps, true, none⟩
  | .failure _ =>
    ⟨sname, some airQualityCaps, false,
      some "Failed to connect to air quality MCP server"⟩

/-- `initializeContext7Server` (context7-mcp-server.ts 40-69): a module-level
`serverStatus.connected` flag (`already`) short-circuits the connect call; on
its non-connected path a connect failure is caught and resolves with
`{ connected: false, error: error.message }`.  `sname` / `caps` are the status
fields the manager reads off the returned server object. -/
def context7Initializer (sname : String) (caps : Option (List String))
    (already : Bool) (out : ConnectOutcome) : InitResult :=
  if already then ⟨sname, caps, true, none⟩
  else
    match out with
    | .success => ⟨sname, caps, true, none⟩
    | .failure msg => ⟨sname, caps, false, some msg⟩

/-- The Context7 module-level `serverStatus.connected` flag after one
`initializeContext7Server` call: unchanged (`true`) when it was already set,
otherwise `true` exactly on connect success. -/
def context7FlagAfter (already : Bool) (out : ConnectOutcome) : Bool :=
  already || out.isSuccess

/-- One environment of a full `initializeAll` batch over the three providers
registered by the `MCPServerManager` constructor: configured status names,
the Context7 already-connected flag, and the three connect outcomes. -/
structure BatchEnv where
  wName : String
  aName : String
  cName : String
  cCaps : Option (List String)
  already : Bool
  wOut : ConnectOutcome
  aOut : ConnectOutcome
  cOut : ConnectOutcome

/-- The initializer map registered by the `MCPServerManager` constructor
(servers/index.ts 27-37), each initializer resolved per its own semantics. -/
def managerBatch (e : BatchEnv) : List (String × InitOutcome) :=
  [("weather", .ok (weatherInitializer e.wName e.wOut)),
   ("airQuality", .ok (airQualityInitializer e.aName e.aOut)),
   ("context7", .ok (context7Initializer e.cName e.cCaps e.already e.cOut))]

/-- A full `initializeAll` batch of a freshly constructed manager
(status map initially empty). -/
def runBatch (now : Nat) (e : BatchEnv) :
    InitAllResult × List (String × MCPServerStatus) :=
  initializeAll now (managerBatch e) []

/-- `MCPServerManager.getServerStatus` (servers/index.ts 197-199). -/
def getServerStatus (sts : List (String × MCPServerStatus)) (name : String) :
    Option MCPServerStatus :=
  mapGet sts name

/-- C2.  After a full batch: a provider whose connect attempt succeeded has
status `connected = true`, no `lastError`, and `lastConnected` set to the
batch time; a provider whose attempt failed has `connected = false` and a
non-empty `lastError` (the fixed initializer message for weather /
air-quality, the raw connect error for Context7, assumed non-empty). -/
theorem getServerStatus_after_batch (now : Nat) (e : BatchEnv) :
    (e.wOut = .success →
      getServerStatus (runBatch now e).2 "weather" =
        some ⟨e.wName, true, some weatherCaps, some now, none⟩) ∧
    (∀ m, e.wOut = .failure m →
      getServerStatus (runBatch now e).2 "weather" =
        some ⟨e.wName, false, some weatherCaps, none,
          some "Failed to connect to weather MCP server"⟩ ∧
      "Failed to connect to weather MCP server" ≠ "") ∧
    (e.aOut = .success →
      getServerStatus (runBatch now e).2 "airQuality" =
        some ⟨e.aName, true, some airQualityCaps, some now, none⟩) ∧
    (∀ m, e.aOut = .failure m →
      getServerStatus (runBatch now e).2 "airQuality" =
        some ⟨e.aName, false, some airQualityCaps, none,
          some "Failed to connect to air quality MCP server"⟩ ∧
      "Failed to connect to air quality MCP server" ≠ "") ∧
    ((e.already = true ∨ e.cOut = .success) →
      getServerStatus (runBatch now e).2 "context7" =
        some ⟨e.cName, true, e.cCaps, some now, none⟩) ∧
    (∀ m, e.already = false → e.cOut = .failure m → m ≠ "" →
      getServerStatus (runBatch now e).2 "context7" =
        some ⟨e.cName, false, e.cCaps, none, some m⟩) := by
  obtain ⟨wN, aN, cN, cC, already, wOut, aOut, cOut⟩ := e
  refine ⟨?_, ?_, ?_, ?_, ?_, ?_⟩
  · rintro rfl
    cases aOut <;> cases cOut <;> cases already <;>
      simp [runBatch, managerBatch, initializeAll, getServerStatus, mapGet,
        mapSet, weatherInitializer, airQualityInitializer, context7Initializer,
        statusOfResult, truthy]
  · rintro m rfl
    refine ⟨?_, by decide⟩
    cases aOut <;> cases cOut <;> cases already <;>
      simp [runBatch, managerBatch, initializeAll, getServerStatus, mapGet,
        mapSet, weatherInitializer, airQualityInitializer, context7Initializer,
        statusOfResult, truthy]
  · rintro rfl
    cases wOut <;> cases cOut <;> cases already <;>
      simp [runBatch, managerBatch, initializeAll, getServerStatus, mapGet,
        mapSet, weatherInitializer, airQualityInitializer, context7Initializer,
        statusOfResult, truthy]
  · rintro m rfl
    refine ⟨?_, by decide⟩
    cases wOut <;> cases cOut <;> cases already <;>
      simp [runBatch, managerBatch, initializeAll, getServerStatus, mapGet,
        mapSet, weatherInitializer, airQualityInitializer, context7Initializer,
        statusOfResult, truthy]
  · intro h
    rcases h with h | h
    · subst h
      cases wOut <;> cases aOut <;> cases cOut <;>
        simp [runBatch, managerBatch, initializeAll, getServerStatus, mapGet,
          mapSet, weatherInitializer, airQualityInitializer,
          context7Initializer, statusOfResult, truthy]
    · subst h
      cases wOut <;> cases aOut <;> cases already <;>
        simp [runBatch, managerBatch, initializeAll, getServerStatus, mapGet,
          mapSet, weatherInitializer, airQualityInitializer,
          context7Initializer, statusOfResult, truthy]
  · rintro m rfl rfl hm
    cases wOut <;> cases aOut <;>
      simp [runBatch, managerBatch, initializeAll, getServerStatus, mapGet,
        mapSet, weatherInitializer, airQualityInitializer, context7Initializer,
        statusOfResult, truthy, hm]

/-- Witness for C2 at a concrete batch: weather succeeds, air quality fails,
Context7 (not previously connected) fails with a raw message. -/
theorem getServerStatus_after_batch_witness :
    getServerStatus
        (runBatch 5 ⟨"W", "A", "C7", some ["d"], false,
          .success, .failure "spawn failed", .failure "boom"⟩).2 "weather" =
      some ⟨"W", true, some weatherCaps, some 5, none⟩ ∧
    getServerStatus
        (runBatch 5 ⟨"W", "A", "C7", some ["d"], false,
          .success, .failure "spawn failed", .failure "boom"⟩).2 "airQuality" =
      some ⟨"A", false, some airQualityCaps, none,
        some "Failed to connect to air quality MCP server"⟩ ∧
    getServerStatus
        (runBatch 5 ⟨"W", "A", "C7", some ["d"], false,
          .success, .failure "spawn failed", .failure "boom"⟩).2 "context7" =
      some ⟨"C7", false, some ["d"], none, some "boom"⟩ := by
  obtain ⟨h1, h2, _, h4, _, h6⟩ :=
    getServerStatus_after_batch 5
      ⟨"W", "A", "C7", some ["d"], false,
        .success, .failure "spawn failed", .failure "boom"⟩
  exact ⟨h1 rfl, (h4 "spawn failed" rfl).1, h6 "boom" rfl rfl (by decide)⟩

/-- The `mcpServers` boolean capability triple used throughout
agent-config.ts / agent-factory.ts. -/
structure Capabilities where
  weather : Bool
  airQuality : Bool
  documentation : Bool
deriving Repr, DecidableEq

/-- The configuration environment (config/index.ts): the optional API keys
the capability resolution reads. -/
structure EnvConfig where
  weatherApiKey : Option String
  airQualityApiKey : Option String
  context7ApiKey : Option String
deriving Repr, DecidableEq

/-- The `mcpServers` triple set by `createEnvironmentConfig`
(agent-config.ts 337-342): weather / air-quality enabled iff their API key is
truthy, documentation enabled unconditionally. -/
def createEnvironmentConfigServers (env : EnvConfig) : Capabilities :=
  { weather := truthy env.weatherApiKey
    airQuality := truthy env.airQualityApiKey
    documentation := true }

/-- The optional per-field `mcpServers` object of `MCPAgentCreationOptions`
(agent-factory.ts 26-30). -/
structure PartialCaps where
  weather : Option Bool
  airQuality : Option Bool
  documentation : Option Bool
deriving Repr, DecidableEq

/-- `DEFAULT_MCP_AGENT_OPTIONS.mcpServers` (agent-factory.ts 39-47). -/
def defaultAgentOptionsServers : PartialCaps :=
  ⟨some true, some true, some true⟩

/-- `createMCPAgent` (agent-factory.ts 55-65): the options spread
`{ ...DEFAULT_MCP_AGENT_OPTIONS, ...options }` followed by the per-field
fallback `opts.mcpServers?.x ?? agentConfig.mcpServers.x` onto the
environment-derived configuration. -/
def enabledServersOf (optsServers : Option PartialCaps) (envCaps : Capabilities) :
    Capabilities :=
  let p := optsServers.getD defaultAgentOptionsServers
  { weather := p.weather.getD envCaps.weather
    airQuality := p.airQuality.getD envCaps.airQuality
    documentation := p.documentation.getD envCaps.documentation }

/-- Handle of an MCP server connection passed to the agent runtime. -/
inductive MCPHandle where
  | context7Server
deriving Repr, DecidableEq

/-- Handle of a direct tool passed to the agent runtime. -/
inductive ToolHandle where
  | weatherTool
  | airQualityTool
deriving Repr, DecidableEq

/-- The `mcpServers` list of the created agent (agent-factory.ts 67-72): the
Context7 handle is included only when documentation is enabled and
`isContext7ServerConnected()` holds. -/
def agentMcpServers (enabled : Capabilities) (c7connected : Bool) :
    List MCPHandle :=
  if enabled.documentation && c7connected then [.context7Server] else []

/-- `getToolsForCapabilities` (tools/index.ts 132-151): direct tools only. -/
def getToolsForCapabilities (caps : Capabilities) : List ToolHandle :=
  (if caps.weather then [.weatherTool] else []) ++
    (if caps.airQuality then [.airQualityTool] else [])

/-- The options the chat interface passes to the factory after a batch
(chat-interface.ts 73-79): weather and air quality hard-enabled,
documentation enabled iff `context7` is among the batch's connected names. -/
def chatAgentOptionsServers (connectedNames : List String) : PartialCaps :=
  ⟨some true, some true, some (connectedNames.contains "context7")⟩

/-- The effective capability triple of the agent created by
`MCPChatInterface.start`: chat options resolved through `createMCPAgent`
against the environment configuration. -/
def chatEnabledServers (env : EnvConfig) (now : Nat) (e : BatchEnv) :
    Capabilities :=
  enabledServersOf (some (chatAgentOptionsServers (runBatch now e).1.connected))
    (createEnvironmentConfigServers env)

/-- The MCP handle list of the agent created by `MCPChatInterface.start`. -/
def chatAgentMcpServers (env : EnvConfig) (now : Nat) (e : BatchEnv) :
    List MCPHandle :=
  agentMcpServers (chatEnabledServers env now e)
    (context7FlagAfter e.already e.cOut)

/-- C3.  Capability gating: when the documentation provider's post-batch
status has `connected = false`, the chat flow resolves
`documentation = false` and the agent's server list excludes the Context7
handle; and when the weather API key is absent (not truthy), the
environment-resolved capability set has `weather = false` — the environment
resolution reads no registry state at all, so this holds regardless of the
registry. -/
theorem capability_gating (env : EnvConfig) (now : Nat) (e : BatchEnv) :
    (∀ st, getServerStatus (runBatch now e).2 "context7" = some st →
      st.connected = false →
      (chatEnabledServers env now e).documentation = false ∧
      MCPHandle.context7Server ∉ chatAgentMcpServers env now e) ∧
    (truthy env.weatherApiKey = false →
      (createEnvironmentConfigServers env).weather = false) := by
  constructor
  · intro st hst hconn
    obtain ⟨wN, aN, cN, cC, already, wOut, aOut, cOut⟩ := e
    cases already <;> cases cOut <;> cases wOut <;> cases aOut <;>
      simp_all [runBatch, managerBatch, initializeAll, getServerStatus, mapGet,
        mapSet, weatherInitializer, airQualityInitializer, context7Initializer,
        statusOfResult, truthy, chatEnabledServers, chatAgentOptionsServers,
        enabledServersOf, createEnvironmentConfigServers, chatAgentMcpServers,
        agentMcpServers, context7FlagAfter, ConnectOutcome.isSuccess]
    all_goals (rw [← hst] at hconn; simp at hconn)
  · intro h
    simp [createEnvironmentConfigServers, h]

/-- Witness for C3 at a concrete input: empty environment, Context7 connect
fails while the other two succeed. -/
theorem capability_gating_witness :
    (chatEnabledServers ⟨none, none, none⟩ 0
        ⟨"W", "A", "C7", some ["d"], false,
          .success, .success, .failure "boom"⟩).documentation = false ∧
    MCPHandle.context7Server ∉
      chatAgentMcpServers ⟨none, none, none⟩ 0
        ⟨"W", "A", "C7", some ["d"], false,
          .success, .success, .failure "boom"⟩ ∧
    (createEnvironmentConfigServers ⟨none, none, none⟩).weather = false := by
  obtain ⟨h1, h2⟩ :=
    capability_gating ⟨none, none, none⟩ 0
      ⟨"W", "A", "C7", some ["d"], false, .success, .success, .failure "boom"⟩
  obtain ⟨ha, hb⟩ := h1 ⟨"C7", false, some ["d"], none, some "boom"⟩
    (by decide) (by decide)
  exact ⟨ha, hb, h2 (by decide)⟩

/-- `EXAMPLE_QUERIES.WEATHER` (config/index.ts). -/
def exampleQueriesWeather : List String :=
  ["What's the weather in New York?",
   "How hot is it in Tokyo today?",
   "Is it raining in London?"]

/-- `EXAMPLE_QUERIES.AIR_QUALITY` (config/index.ts). -/
def exampleQueriesAirQuality : List String :=
  ["What's the air quality in Beijing?",
   "How's the air pollution in Delhi?",
   "Is the air quality good in San Francisco?"]

/-- `EXAMPLE_QUERIES.DOCS` (config/index.ts). -/
def exampleQueriesDocs : List String :=
  ["What are the latest features in React?",
   "Show me OpenAI API documentation",
   "Get the latest LangChain docs",
   "What's new in Next.js?"]

/-- The per-capability server entries of `InstructionsContext.mcpServers`;
the builder reads only `connected` and `capabilities`. -/
structure InstructionsServers where
  weather : MCPServerStatus
  airQuality : MCPServerStatus
  context7 : MCPServerStatus
deriving Repr, DecidableEq

/-- `InstructionsContext` (types/index.ts): capability triple, per-server
status entries, optional user query (destructured but unused by the
builder). -/
structure InstructionsContext where
  capabilities : Capabilities
  mcpServers : InstructionsServers
  userQuery : Option String := none
deriving Repr, DecidableEq

/-- `capabilities?.join(', ') || fallback`: the joined capability list, or
the fallback when the list is absent or joins to the empty string. -/
def capsJoinOr (caps : Option (List String)) (fallback : String) : String :=
  match caps with
  | some l =>
    let j := String.intercalate ", " l
    if j = "" then fallback else j
  | none => fallback

/-- `${connected ? 'Connected' : 'Disconnected'}`. -/
def connLabel (c : Bool) : String :=
  if c then "Connected" else "Disconnected"

/-- Fixed opening of the instruction template (instructions.ts 15-19). -/
def instructionsHeader : String :=
  "You are an advanced AI assistant with access to MCP (Model Context Protocol) servers for specialized data retrieval.\n\n## Available MCP Servers\n\n"

/-- Weather server section (instructions.ts 22-29). -/
def weatherSection (s : MCPServerStatus) : String :=
  "### 🌤️ Weather MCP Server (" ++ connLabel s.connected ++ ")\n" ++
  "- Get current weather data for any location worldwide\n" ++
  "- Provides temperature, humidity, wind speed, pressure, visibility, and more\n" ++
  "- Capabilities: " ++ capsJoinOr s.capabilities "weather data" ++ "\n\n"

/-- Air quality server section (instructions.ts 32-40). -/
def airQualitySection (s : MCPServerStatus) : String :=
  "### 🌬️ Air Quality MCP Server (" ++ connLabel s.connected ++ ")\n" ++
  "- Get real-time air quality data and AQI (Air Quality Index)\n" ++
  "- Provides pollutant levels (PM2.5, PM10, NO2, SO2, CO, O3)\n" ++
  "- Health implications and recommendations\n" ++
  "- Capabilities: " ++ capsJoinOr s.capabilities "air quality data" ++ "\n\n"

/-- Context7 documentation server section (instructions.ts 43-51). -/
def context7Section (s : MCPServerStatus) : String :=
  "### 📚 Context7 Documentation MCP Server (" ++ connLabel s.connected ++ ")\n" ++
  "- Access latest documentation for libraries and frameworks\n" ++
  "- Get up-to-date API references and guides\n" ++
  "- Supports React, Next.js, OpenAI, LangChain, TypeScript, and more\n" ++
  "- Capabilities: " ++ capsJoinOr s.capabilities "documentation lookup" ++ "\n\n"

/-- Fixed middle block of the template (instructions.ts 53-64). -/
def capabilitiesBlock : String :=
  "## Your Capabilities\n\nYou should:\n" ++
  "1. **Automatically determine** when to use MCP servers based on user queries\n" ++
  "2. **Use appropriate MCP servers** for weather, air quality, or documentation queries\n" ++
  "3. **Provide comprehensive responses** combining data from multiple servers when relevant\n" ++
  "4. **Handle errors gracefully** if MCP servers are unavailable\n" ++
  "5. **Offer alternatives** when specific servers are disconnected\n\n" ++
  "## Query Examples\n\n"

/-- One example-query section: title plus quoted bullet list. -/
def querySection (title : String) (qs : List String) : String :=
  title ++ "\n" ++
    String.intercalate "\n" (qs.map (fun q => "- \"" ++ q ++ "\"")) ++ "\n\n"

/-- Fixed closing block of the template (instructions.ts 88-105). -/
def responseGuidelines : String :=
  "## Response Guidelines\n\n" ++
  "1. **Be specific and detailed** when providing data from MCP servers\n" ++
  "2. **Format data clearly** with appropriate emojis and structure\n" ++
  "3. **Combine multiple data sources** when relevant (e.g., weather + air quality for outdoor activities)\n" ++
  "4. **Provide context and interpretation** of the data\n" ++
  "5. **Suggest actions** based on the data when appropriate\n" ++
  "6. **Handle location variations** (city names, coordinates, etc.)\n\n" ++
  "## Error Handling\n\n" ++
  "If an MCP server is unavailable:\n" ++
  "- Acknowledge the limitation clearly\n" ++
  "- Provide general guidance when possible\n" ++
  "- Suggest alternative approaches\n" ++
  "- Maintain a helpful and professional tone\n\n" ++
  "Remember: Always prioritize providing accurate, helpful, and well-formatted responses using the available MCP server data."

/-- `buildInstructions` (instructions.ts 12-108): fixed header, then one
section per capability that is both enabled and connected, fixed middle
block, matching example-query sections, fixed closing block.  Pure string
assembly — no timestamp or randomness appears in the source template. -/
def buildInstructions (ctx : InstructionsContext) : String :=
  let caps := ctx.capabilities
  let srv := ctx.mcpServers
  instructionsHeader ++
  (if caps.weather && srv.weather.connected then weatherSection srv.weather else "") ++
  (if caps.airQuality && srv.airQuality.connected then airQualitySection srv.airQuality else "") ++
  (if caps.documentation && srv.context7.connected then context7Section srv.context7 else "") ++
  capabilitiesBlock ++
  (if caps.weather && srv.weather.connected then
    querySection "### Weather Queries:" exampleQueriesWeather else "") ++
  (if caps.airQuality && srv.airQuality.connected then
    querySection "### Air Quality Queries:" exampleQueriesAirQuality else "") ++
  (if caps.documentation && srv.context7.connected then
    querySection "### Documentation Queries:" exampleQueriesDocs else "") ++
  responseGuidelines

/-- The output of `buildInstructions` when no domain section fires: header,
middle block and closing block only. -/
def buildInstructionsBase : String :=
  instructionsHeader ++ capabilitiesBlock ++ responseGuidelines

/-- `instructionBuilders.chat` (instructions.ts 157-167): the fixed general
chat persona; the context argument is ignored. -/
def chatInstructions (_ctx : InstructionsContext) : String :=
  "You are a helpful AI assistant. You can engage in general conversation and provide information on a wide range of topics. \n\n" ++
  "While you don't have access to specialized MCP servers in this mode, you can still provide helpful responses based on your training data.\n\n" ++
  "Please:\n- Be helpful, informative, and conversational\n" ++
  "- Provide accurate information to the best of your ability\n" ++
  "- Ask clarifying questions when needed\n" ++
  "- Maintain a friendly and professional tone"

/-- C5.  Instruction building is deterministic: two calls of
`buildInstructions` on identical capability / server-status / query inputs
produce byte-identical outputs; the embedding transcribes the source
template, which contains no randomness or timestamps, as a pure function of
the context. -/
theorem buildInstructions_deterministic (c1 c2 : InstructionsContext)
    (h : c1 = c2) : buildInstructions c1 = buildInstructions c2 := by
  rw [h]

/-- Witness for C5 at a concrete context. -/
theorem buildInstructions_deterministic_witness :
    buildInstructions
        ⟨⟨true, false, true⟩,
          ⟨⟨"W", true, some weatherCaps, some 3, none⟩,
           ⟨"A", false, some airQualityCaps, none, some "x"⟩,
           ⟨"C7", true, some ["resolve_library_id"], some 3, none⟩⟩,
          some "hello"⟩ =
      buildInstructions
        ⟨⟨true, false, true⟩,
          ⟨⟨"W", true, some weatherCaps, some 3, none⟩,
           ⟨"A", false, some airQualityCaps, none, some "x"⟩,
           ⟨"C7", true, some ["resolve_library_id"], some 3, none⟩⟩,
          some "hello"⟩ :=
  buildInstructions_deterministic _ _ rfl

/-- C4 counterexample: with no API keys configured the claim's "resolved
capability set is all-false" conjunct is false on the code — the
environment-resolved set (`createEnvironmentConfig`) enables `documentation`
unconditionally, and the chat flow hard-enables `weather` (and `airQuality`)
even when every provider connection fails. -/
theorem empty_environment_counterexample :
    (createEnvironmentConfigServers ⟨none, none, none⟩).documentation = true ∧
    (chatEnabledServers ⟨none, none, none⟩ 0
        ⟨"W", "A", "C7", some ["d"], false, .failure "ECONNREFUSED",
          .failure "ECONNREFUSED", .failure "ECONNREFUSED"⟩).weather = true := by
  constructor
  · rfl
  · rfl

/-- C4 (amended).  Empty environment, no provider reachable: the batch
returns an empty `connected` list, all three registered names in `failed`,
and an error per name; the environment-resolved capability set is
`{weather: false, airQuality: false, documentation: true}` (not all-false —
documentation is enabled unconditionally there), while the chat flow
resolves `{weather: true, airQuality: true, documentation: false}`; and with
an all-false capability set `buildInstructions` appends no domain-specific
section (it returns exactly the fixed base template). -/
theorem empty_environment_scenario :
    (∀ (now : Nat) (wN aN cN : String) (cC : Option (List String))
        (wm am cm : String), cm ≠ "" →
      (runBatch now ⟨wN, aN, cN, cC, false,
          .failure wm, .failure am, .failure cm⟩).1 =
        ⟨[], ["weather", "airQuality", "context7"],
          [("weather", "Failed to connect to weather MCP server"),
           ("airQuality", "Failed to connect to air quality MCP server"),
           ("context7", cm)]⟩) ∧
    (∀ env : EnvConfig, truthy env.weatherApiKey = false →
      truthy env.airQualityApiKey = false →
      createEnvironmentConfigServers env = ⟨false, false, true⟩) ∧
    (∀ (now : Nat) (env : EnvConfig) (wN aN cN : String)
        (cC : Option (List String)) (wm am cm : String),
      chatEnabledServers env now ⟨wN, aN, cN, cC, false,
          .failure wm, .failure am, .failure cm⟩ = ⟨true, true, false⟩) ∧
    (∀ (srv : InstructionsServers) (q : Option String),
      buildInstructions ⟨⟨false, false, false⟩, srv, q⟩ =
        buildInstructionsBase) := by
  refine ⟨?_, ?_, ?_, ?_⟩
  · intro now wN aN cN cC wm am cm hm
    simp [runBatch, managerBatch, initializeAll, weatherInitializer,
      airQualityInitializer, context7Initializer, hm]
  · intro env h1 h2
    simp [createEnvironmentConfigServers, h1, h2]
  · intro now env wN aN cN cC wm am cm
    simp [chatEnabledServers, chatAgentOptionsServers, enabledServersOf,
      createEnvironmentConfigServers, runBatch, managerBatch, initializeAll,
      weatherInitializer, airQualityInitializer, context7Initializer]
  · intro srv q
    simp [buildInstructions, buildInstructionsBase, String.append_empty]

/-- Witness for C4 (amended) at concrete inputs. -/
theorem empty_environment_scenario_witness :
    (runBatch 0 ⟨"W", "A", "C7", some ["d"], false,
        .failure "e1", .failure "e2", .failure "e3"⟩).1 =
      ⟨[], ["weather", "airQuality", "context7"],
        [("weather", "Failed to connect to weather MCP server"),
         ("airQuality", "Failed to connect to air quality MCP server"),
         ("context7", "e3")]⟩ ∧
    createEnvironmentConfigServers ⟨none, none, none⟩ = ⟨false, false, true⟩ ∧
    chatEnabledServers ⟨none, none, none⟩ 0
        ⟨"W", "A", "C7", some ["d"], false,
          .failure "e1", .failure "e2", .failure "e3"⟩ = ⟨true, true, false⟩ ∧
    buildInstructions
        ⟨⟨false, false, false⟩,
          ⟨⟨"W", false, none, none, none⟩, ⟨"A", false, none, none, none⟩,
           ⟨"C7", false, none, none, none⟩⟩, none⟩ =
      buildInstructionsBase := by
  obtain ⟨h1, h2, h3, h4⟩ := empty_environment_scenario
  exact ⟨h1 0 "W" "A" "C7" (some ["d"]) "e1" "e2" "e3" (by decide),
    h2 ⟨none, none, none⟩ (by decide) (by decide),
    h3 0 ⟨none, none, none⟩ "W" "A" "C7" (some ["d"]) "e1" "e2" "e3",
    h4 ⟨⟨"W", false, none, none, none⟩, ⟨"A", false, none, none, none⟩,
      ⟨"C7", false, none, none, none⟩⟩ none⟩

/-- `ERROR_MESSAGES.WEATHER_API_KEY_MISSING` (config/index.ts). -/
def weatherApiKeyMissingMsg : String :=
  "Weather API key not configured. Please add OPENWEATHER_API_KEY to your .env file."

/-- `ERROR_MESSAGES.WEATHER_API_KEY_INSTRUCTIONS` (config/index.ts). -/
def weatherApiKeyInstructionsMsg : String :=
  "Get a free API key from https://openweathermap.org/api"

/-- `ERROR_MESSAGES.AIR_QUALITY_API_KEY_MISSING` (config/index.ts). -/
def airQualityApiKeyMissingMsg : String :=
  "Air Quality API key not configured. Please add AQICN_API_KEY to your .env file."

/-- `ERROR_MESSAGES.AIR_QUALITY_API_KEY_INSTRUCTIONS` (config/index.ts). -/
def airQualityApiKeyInstructionsMsg : String :=
  "Get a free API key from https://aqicn.org/api/"

/-- `ERROR_MESSAGES.LOCATION_NOT_FOUND` (config/index.ts). -/
def locationNotFoundMsg : String :=
  "Location not found. Please check the spelling and try again."

/-- `ERROR_MESSAGES.LOCATION_SUGGESTION` (config/index.ts). -/
def locationSuggestionMsg : String :=
  "Try using a more specific location name, like \"New York, NY\" or \"London, UK\""

/-- `ERROR_MESSAGES.FETCH_ERROR` (config/index.ts). -/
def fetchErrorMsg : String := "Unable to fetch data at this time."

/-- Substring occurrence over character lists: `pat` occurs at some
position of the second argument. -/
def containsSubChars (pat : List Char) : List Char → Bool
  | [] => List.isPrefixOf pat []
  | c :: rest => List.isPrefixOf pat (c :: rest) || containsSubChars pat rest

/-- JS `s.includes(pat)`. -/
def containsSub (s pat : String) : Bool := containsSubChars pat.data s.data

/-- Behaviour of the single axios GET the weather tool issues: a parsed JSON
body (its rendered success payload), an HTTP error with status and raw
message, an axios timeout (`code === 'ECONNABORTED'`), or another network
failure with no response. -/
inductive WeatherHttp where
  | ok (formatted : String)
  | httpError (status : Nat) (msg : String)
  | timeout (msg : String)
  | netError (msg : String)
deriving Repr, DecidableEq

/-- Behaviour of the single axios GET the air-quality tool issues; on the
parsed-body path the AQICN envelope carries a `status` field the tool
checks before rendering its payload. -/
inductive AirQualityHttp where
  | ok (status : String) (formatted : String)
  | httpError (status : Nat) (msg : String)
  | timeout (msg : String)
  | netError (msg : String)
deriving Repr, DecidableEq

/-- The structured object a tool `execute` returns to the agent runtime:
either a success payload or an error record with optional `details`,
`suggestion` and `instructions` fields.  The type has no thrown alternative —
every branch of the source `execute` returns. -/
inductive ToolResult where
  | success (formatted : String)
  | failure (error : String) (details : Option String)
      (suggestion : Option String) (moreInfo : Option String)
deriving Repr, DecidableEq

/-- `weatherTool.execute` (tools/index.ts 32-106): missing key short-circuit,
then the axios call with its catch ladder — 404 first, then `ECONNABORTED`,
then the generic fetch failure carrying the raw message as `details`.  The
location argument only feeds the outgoing request. -/
def weatherToolExecute (_location : String) (apiKey : Option String)
    (out : WeatherHttp) : ToolResult :=
  if truthy apiKey = false then
    .failure weatherApiKeyMissingMsg none none (some weatherApiKeyInstructionsMsg)
  else
    match out with
    | .ok f => .success f
    | .httpError s m =>
      if s = 404 then
        .failure locationNotFoundMsg none (some locationSuggestionMsg) none
      else .failure fetchErrorMsg (some m) none none
    | .timeout _ =>
      .failure "Weather service request timed out. Please try again." none none none
    | .netError m => .failure fetchErrorMsg (some m) none none

/-- `airQualityTool.execute` (air-quality-tool.ts 21-103): missing key
short-circuit; a parsed body with `status !== 'ok'` is a location-not-found
result; the catch ladder checks `status === 404 || message.includes('Location
not found')` first, then `ECONNABORTED`, then the generic fetch failure. -/
def airQualityToolExecute (_location : String) (apiKey : Option String)
    (out : AirQualityHttp) : ToolResult :=
  if truthy apiKey = false then
    .failure airQualityApiKeyMissingMsg none none
      (some airQualityApiKeyInstructionsMsg)
  else
    match out with
    | .ok st f =>
      if st = "ok" then .success f
      else .failure locationNotFoundMsg none (some locationSuggestionMsg) none
    | .httpError s m =>
      if s = 404 || containsSub m "Location not found" then
        .failure locationNotFoundMsg none (some locationSuggestionMsg) none
      else .failure fetchErrorMsg (some m) none none
    | .timeout m =>
      if containsSub m "Location not found" then
        .failure locationNotFoundMsg none (some locationSuggestionMsg) none
      else
        .failure "Air quality service request timed out. Please try again."
          none none none
    | .netError m =>
      if containsSub m "Location not found" then
        .failure locationNotFoundMsg none (some locationSuggestionMsg) none
      else .failure fetchErrorMsg (some m) none none

/-- C6 counterexample: an HTTP 401 is not mapped to an invalid-credential
message by either tool of module 06 — there is no 401 branch, so it falls
through to the generic failure `'Unable to fetch data at this time.'` with
the raw message as `details`. -/
theorem tool_401_counterexample :
    weatherToolExecute "London" (some "key")
        (.httpError 401 "Request failed with status code 401") =
      .failure "Unable to fetch data at this time."
        (some "Request failed with status code 401") none none ∧
    airQualityToolExecute "London" (some "key")
        (.httpError 401 "Request failed with status code 401") =
      .failure "Unable to fetch data at this time."
        (some "Request failed with status code 401") none none := by
  constructor
  · rfl
  · rfl

/-- C6 (amended).  Both tool `execute`s are total functions into structured
results (never throw): a missing key yields the key-missing error record,
HTTP 404 yields the location-not-found record, an axios timeout yields the
timed-out record, and any other failure — including HTTP 401 — yields the
generic fetch-failure record with the raw message attached as `details`;
the air-quality tool additionally treats a body with `status !== 'ok'` and
any message containing `'Location not found'` as location-not-found. -/
theorem tool_error_mapping :
    (∀ loc o, weatherToolExecute loc none o =
      .failure weatherApiKeyMissingMsg none none
        (some weatherApiKeyInstructionsMsg)) ∧
    (∀ loc k m, truthy k = true →
      weatherToolExecute loc k (.httpError 404 m) =
        .failure locationNotFoundMsg none (some locationSuggestionMsg) none) ∧
    (∀ loc k m, truthy k = true →
      weatherToolExecute loc k (.timeout m) =
        .failure "Weather service request timed out. Please try again."
          none none none) ∧
    (∀ loc k s m, truthy k = true → s ≠ 404 →
      weatherToolExecute loc k (.httpError s m) =
        .failure fetchErrorMsg (some m) none none) ∧
    (∀ loc k m, truthy k = true →
      weatherToolExecute loc k (.netError m) =
        .failure fetchErrorMsg (some m) none none) ∧
    (∀ loc k f, truthy k = true →
      weatherToolExecute loc k (.ok f) = .success f) ∧
    (∀ loc o, airQualityToolExecute loc none o =
      .failure airQualityApiKeyMissingMsg none none
        (some airQualityApiKeyInstructionsMsg)) ∧
    (∀ loc k m, truthy k = true →
      airQualityToolExecute loc k (.httpError 404 m) =
        .failure locationNotFoundMsg none (some locationSuggestionMsg) none) ∧
    (∀ loc k s m, truthy k = true → s ≠ 404 →
      containsSub m "Location not found" = false →
      airQualityToolExecute loc k (.httpError s m) =
        .failure fetchErrorMsg (some m) none none) ∧
    (∀ loc k m, truthy k = true → containsSub m "Location not found" = false →
      airQualityToolExecute loc k (.timeout m) =
        .failure "Air quality service request timed out. Please try again."
          none none none) ∧
    (∀ loc k st f, truthy k = true → st ≠ "ok" →
      airQualityToolExecute loc k (.ok st f) =
        .failure locationNotFoundMsg none (some locationSuggestionMsg) none) := by
  refine ⟨?_, ?_, ?_, ?_, ?_, ?_, ?_, ?_, ?_, ?_, ?_⟩
  · intro loc o
    cases o <;> rfl
  · intro loc k m hk
    simp [weatherToolExecute, hk]
  · intro loc k m hk
    simp [weatherToolExecute, hk]
  · intro loc k s m hk hs
    simp [weatherToolExecute, hk, hs]
  · intro loc k m hk
    simp [weatherToolExecute, hk]
  · intro loc k f hk
    simp [weatherToolExecute, hk]
  · intro loc o
    cases o <;> rfl
  · intro loc k m hk
    simp [airQualityToolExecute, hk]
  · intro loc k s m hk hs hm
    simp [airQualityToolExecute, hk, hs, hm]
  · intro loc k m hk hm
    simp [airQualityToolExecute, hk, hm]
  · intro loc k st f hk hst
    simp [airQualityToolExecute, hk, hst]

/-- Witness for C6 (amended) at concrete inputs: missing key, 404, timeout
and a 500 with the raw message attached. -/
theorem tool_error_mapping_witness :
    weatherToolExecute "Paris" none (.ok "sunny") =
      .failure weatherApiKeyMissingMsg none none
        (some weatherApiKeyInstructionsMsg) ∧
    weatherToolExecute "Paris" (some "k") (.httpError 404 "not found") =
      .failure locationNotFoundMsg none (some locationSuggestionMsg) none ∧
    weatherToolExecute "Paris" (some "k") (.timeout "timeout of 10000ms exceeded") =
      .failure "Weather service request timed out. Please try again."
        none none none ∧
    weatherToolExecute "Paris" (some "k") (.httpError 500 "server error") =
      .failure fetchErrorMsg (some "server error") none none ∧
    airQualityToolExecute "Paris" (some "k") (.ok "error" "ignored") =
      .failure locationNotFoundMsg none (some locationSuggestionMsg) none := by
  obtain ⟨h1, h2, h3, h4, _, _, _, _, _, _, h11⟩ := tool_error_mapping
  exact ⟨h1 "Paris" (.ok "sunny"),
    h2 "Paris" (some "k") "not found" (by decide),
    h3 "Paris" (some "k") "timeout of 10000ms exceeded" (by decide),
    h4 "Paris" (some "k") 500 "server error" (by decide) (by decide),
    h11 "Paris" (some "k") "error" "ignored" (by decide) (by decide)⟩

/-- Replacing in place hits the first (unique) binding of `k`. -/
theorem find?_replace {α : Type} (m : List (String × α)) (k : String) (v : α)
    (h : m.any (fun p => p.1 = k) = true) :
    (m.map (fun p => if p.1 = k then (k, v) else p)).find?
      (fun p => p.1 = k) = some (k, v) := by
  induction m with
  | nil => simp at h
  | cons a t ih =>
    by_cases ha : a.1 = k
    · simp [ha, List.find?]
    · simp only [List.any_cons, Bool.or_eq_true, decide_eq_true_eq] at h
      rcases h with h | h
      · exact absurd h ha
      · simp [ha, List.find?, ih h]

/-- Looking up a key that no entry carries fails. -/
theorem find?_none_of_any_false {α : Type} (m : List (String × α)) (k : String)
    (h : m.any (fun p => p.1 = k) = false) :
    m.find? (fun p => p.1 = k) = none := by
  rw [List.find?_eq_none]
  intro p hp
  simp only [List.any_eq_false] at h
  simpa using h p hp

/-- `Map.get` after `Map.set` at the same key. -/
theorem mapGet_mapSet_self {α : Type} (m : List (String × α)) (k : String)
    (v : α) : mapGet (mapSet m k v) k = some v := by
  unfold mapSet mapGet
  by_cases h : m.any (fun p => p.1 = k)
  · simp [h, find?_replace m k v h]
  · simp only [Bool.not_eq_true] at h
    simp [h, List.find?_append, find?_none_of_any_false m k h]

/-- Replacing the binding of `k` does not affect lookups of another key. -/
theorem find?_replace_ne {α : Type} (m : List (String × α)) (k k' : String)
    (v : α) (hne : k ≠ k') :
    (m.map (fun p => if p.1 = k then (k, v) else p)).find?
        (fun p => p.1 = k') =
      m.find? (fun p => p.1 = k') := by
  induction m with
  | nil => rfl
  | cons a t ih =>
    by_cases ha : a.1 = k
    · simp [List.find?, ha, hne, ih]
    · by_cases ha' : a.1 = k'
      · simp [List.find?, ha, ha', Ne.symm hne]
      · simp [List.find?, ha, ha', ih]

/-- `Map.get` after `Map.set` at a different key. -/
theorem mapGet_mapSet_ne {α : Type} (m : List (String × α)) (k k' : String)
    (v : α) (hne : k ≠ k') : mapGet (mapSet m k v) k' = mapGet m k' := by
  unfold mapSet mapGet
  by_cases h : m.any (fun p => p.1 = k)
  · simp [h, find?_replace_ne m k k' v hne]
  · simp only [Bool.not_eq_true] at h
    have : ([(k, v)].find? (fun p => p.1 = k')) = none := by
      simp [List.find?, hne]
    simp [h, List.find?_append, this]

/-- The key list after `Map.set`: unchanged when the key was present, the key
appended otherwise. -/
theorem keys_mapSet {α : Type} (m : List (String × α)) (k : String) (v : α) :
    (k ∈ m.map Prod.fst →
      (mapSet m k v).map Prod.fst = m.map Prod.fst) ∧
    (k ∉ m.map Prod.fst →
      (mapSet m k v).map Prod.fst = m.map Prod.fst ++ [k]) := by
  constructor
  · intro hmem
    have hany : m.any (fun p => p.1 = k) = true := by
      simp only [List.any_eq_true, decide_eq_true_eq]
      obtain ⟨p, hp, hpk⟩ := List.mem_map.mp hmem
      exact ⟨p, hp, hpk⟩
    unfold mapSet
    simp only [hany, if_pos, List.map_map]
    apply List.map_congr_left
    intro p _
    by_cases hp : p.1 = k
    · simp [hp]
    · simp [hp]
  · intro hmem
    have hany : m.any (fun p => p.1 = k) = false := by
      simp only [List.any_eq_false, decide_eq_true_eq]
      intro p hp hpk
      exact hmem (List.mem_map.mpr ⟨p, hp, hpk⟩)
    unfold mapSet
    simp [hany]

/-- After `Map.set` the key is present. -/
theorem mem_keys_mapSet {α : Type} (m : List (String × α)) (k : String)
    (v : α) : k ∈ (mapSet m k v).map Prod.fst := by
  by_cases hmem : k ∈ m.map Prod.fst
  · rw [(keys_mapSet m k v).1 hmem]
    exact hmem
  · rw [(keys_mapSet m k v).2 hmem]
    simp

/-- `MCPServerManager.initializeServer` (servers/index.ts 95-128): an
unregistered name throws `Server '<name>' not found`; otherwise the
initializer runs, its result (or the caught exception) is recorded with
`Map.set`, and the connected flag is returned. -/
def initializeServer (inits : List (String × InitOutcome))
    (sts : List (String × MCPServerStatus)) (now : Nat) (name : String) :
    Except String (Bool × List (String × MCPServerStatus)) :=
  match mapGet inits name with
  | none => .error ("Server '" ++ name ++ "' not found")
  | some (.ok r) => .ok (r.connected, mapSet sts name (statusOfResult now r))
  | some (.thrown msg) =>
    .ok (false, mapSet sts name (statusOfThrown name msg))

/-- C7.  Recording a successful connection twice in a row is idempotent:
both runs return `connected = true` without raising an error, the status
after the second run has `connected = true` with `lastConnected` refreshed
to the second timestamp and no error, the registry gains no duplicate entry
(the key list is unchanged by the second write), and the Context7
initializer invoked while already connected resolves connected with no
error (and no fresh connect attempt). -/
theorem setConnected_twice_idempotent (inits : List (String × InitOutcome))
    (sts : List (String × MCPServerStatus)) (t1 t2 : Nat)
    (name sname : String) (caps : Option (List String))
    (h : mapGet inits name = some (.ok ⟨sname, caps, true, none⟩)) :
    initializeServer inits sts t1 name =
      .ok (true, mapSet sts name ⟨sname, true, caps, some t1, none⟩) ∧
    initializeServer inits (mapSet sts name ⟨sname, true, caps, some t1, none⟩)
        t2 name =
      .ok (true, mapSet (mapSet sts name ⟨sname, true, caps, some t1, none⟩)
        name ⟨sname, true, caps, some t2, none⟩) ∧
    mapGet (mapSet (mapSet sts name ⟨sname, true, caps, some t1, none⟩)
        name ⟨sname, true, caps, some t2, none⟩) name =
      some ⟨sname, true, caps, some t2, none⟩ ∧
    (mapSet (mapSet sts name ⟨sname, true, caps, some t1, none⟩)
        name ⟨sname, true, caps, some t2, none⟩).map Prod.fst =
      (mapSet sts name ⟨sname, true, caps, some t1, none⟩).map Prod.fst ∧
    (∀ out, context7Initializer sname caps true out = ⟨sname, caps, true, none⟩) := by
  refine ⟨?_, ?_, ?_, ?_, ?_⟩
  · simp [initializeServer, h, statusOfResult, truthy]
  · simp [initializeServer, h, statusOfResult, truthy]
  · exact mapGet_mapSet_self _ _ _
  · exact (keys_mapSet _ _ _).1 (mem_keys_mapSet _ _ _)
  · intro out
    rfl

/-- Witness for C7 at a concrete registry. -/
theorem setConnected_twice_idempotent_witness :
    initializeServer [("context7", .ok ⟨"C7", some ["d"], true, none⟩)]
        [] 1 "context7" =
      .ok (true, [("context7", ⟨"C7", true, some ["d"], some 1, none⟩)]) ∧
    mapGet (mapSet (mapSet [] "context7"
        (⟨"C7", true, some ["d"], some 1, none⟩ : MCPServerStatus))
        "context7" ⟨"C7", true, some ["d"], some 2, none⟩) "context7" =
      some ⟨"C7", true, some ["d"], some 2, none⟩ := by
  obtain ⟨h1, _, h3, _, _⟩ :=
    setConnected_twice_idempotent
      [("context7", .ok ⟨"C7", some ["d"], true, none⟩)] [] 1 2
      "context7" "C7" (some ["d"]) (by rfl)
  exact ⟨h1, h3⟩

/-- Registration of a server instance in the `MCPServerManager` constructor
(servers/index.ts 27-37): a bare `Map.set` on the `servers` map. -/
def registerServer {α : Type} (servers : List (String × α)) (name : String)
    (inst : α) : List (String × α) :=
  mapSet servers name inst

/-- The three names the constructor registers, in order. -/
def managerServerNames : List String := ["weather", "airQuality", "context7"]

/-- C8 counterexample: registering a provider under an already-present name
does not fail — `Map.set` silently replaces the binding, so the call returns
a map (there is no `DuplicateProviderError` anywhere in the code) and the
provider map is changed (the old instance is overwritten). -/
theorem duplicate_registration_counterexample :
    registerServer (registerServer ([] : List (String × Nat)) "weather" 0)
        "weather" 1 = [("weather", 1)] ∧
    registerServer (registerServer ([] : List (String × Nat)) "weather" 0)
        "weather" 1 ≠
      registerServer ([] : List (String × Nat)) "weather" 0 := by
  constructor
  · rfl
  · decide

/-- C8 (amended).  Registration is a total `Map.set` with no duplicate
check: registering under an existing name silently replaces that entry
(key list unchanged — no duplicate entry, no error), registering a fresh
name appends it, and the lookup afterwards yields the new instance; the
shipped constructor registers three pairwise distinct names, so no
duplicate registration occurs in practice. -/
theorem register_overwrites (α : Type) (servers : List (String × α))
    (name : String) (inst : α) :
    mapGet (registerServer servers name inst) name = some inst ∧
    (name ∈ servers.map Prod.fst →
      (registerServer servers name inst).map Prod.fst =
        servers.map Prod.fst) ∧
    (name ∉ servers.map Prod.fst →
      (registerServer servers name inst).map Prod.fst =
        servers.map Prod.fst ++ [name]) ∧
    managerServerNames.Nodup := by
  refine ⟨mapGet_mapSet_self _ _ _, (keys_mapSet _ _ _).1,
    (keys_mapSet _ _ _).2, by decide⟩

/-- Witness for C8 (amended) at a concrete map. -/
theorem register_overwrites_witness :
    mapGet (registerServer [("weather", 0)] "weather" 1) "weather" =
      some 1 ∧
    (registerServer [("weather", 0)] "weather" 1).map Prod.fst =
      [("weather", 0)].map Prod.fst ∧
    (registerServer ([] : List (String × Nat)) "airQuality" 7).map Prod.fst =
      ([] : List (String × Nat)).map Prod.fst ++ ["airQuality"] := by
  obtain ⟨h1, h2, _, _⟩ := register_overwrites Nat [("weather", 0)] "weather" 1
  obtain ⟨_, _, h3, _⟩ :=
    register_overwrites Nat ([] : List (String × Nat)) "airQuality" 7
  exact ⟨h1, h2 (by decide), h3 (by decide)⟩

/-- Behaviour of one `server.disconnect()` call: it resolves with a success
flag, or throws with an error message. -/
inductive DiscOutcome where
  | ok (success : Bool)
  | thrown (msg : String)
deriving Repr, DecidableEq

/-- The `{ disconnected, failed, errors }` record returned by
`MCPServerManager.disconnectAll`. -/
structure DiscAllResult where
  disconnected : List String
  failed : List String
  errors : List (String × String)
deriving Repr, DecidableEq

/-- `{ ...this.statuses.get(name)!, connected: false }`: the possibly-absent
stored record spread with `connected` forced to `false`.  (When the record is
absent the TS spread of `undefined` yields an object carrying only
`connected`; that branch is outside every claim.) -/
def markDisconnected : Option MCPServerStatus → MCPServerStatus
  | some st => { st with connected := false }
  | none => { name := "", connected := false }

/-- `MCPServerManager.disconnectAll` (servers/index.ts 133-161): iterate the
server map; a successful disconnect rewrites the stored status with
`connected: false` (all other fields spread through); a `false` return or a
thrown exception adds the name to `failed` (with the message recorded on
throw) and leaves the stored status untouched; iteration always continues. -/
def disconnectAll :
    List (String × DiscOutcome) → List (String × MCPServerStatus) →
    DiscAllResult × List (String × MCPServerStatus)
  | [], sts => ({ disconnected := [], failed := [], errors := [] }, sts)
  | (name, .ok true) :: rest, sts =>
    let sts1 := mapSet sts name (markDisconnected (mapGet sts name))
    let out := disconnectAll rest sts1
    ({ out.1 with disconnected := name :: out.1.disconnected }, out.2)
  | (name, .ok false) :: rest, sts =>
    let out := disconnectAll rest sts
    ({ out.1 with failed := name :: out.1.failed }, out.2)
  | (name, .thrown msg) :: rest, sts =>
    let out := disconnectAll rest sts
    ({ out.1 with
        failed := name :: out.1.failed
        errors := (name, msg) :: out.1.errors }, out.2)

/-- A name outside the remaining iteration keeps its stored status through
the rest of a `disconnectAll` run. -/
theorem disconnectAll_statuses_unchanged
    (rest : List (String × DiscOutcome))
    (sts : List (String × MCPServerStatus)) (name : String)
    (hnot : name ∉ rest.map Prod.fst) :
    mapGet (disconnectAll rest sts).2 name = mapGet sts name := by
  induction rest generalizing sts with
  | nil => rfl
  | cons hd tl ih =>
    obtain ⟨h, oh⟩ := hd
    simp only [List.map_cons, List.mem_cons, not_or] at hnot
    obtain ⟨hne, hnot'⟩ := hnot
    cases oh with
    | ok b =>
      cases b with
      | true =>
        rw [show (disconnectAll ((h, .ok true) :: tl) sts).2 =
            (disconnectAll tl (mapSet sts h (markDisconnected (mapGet sts h)))).2
          from rfl]
        rw [ih _ hnot']
        exact mapGet_mapSet_ne _ _ _ _ (fun hh => hne hh.symm)
      | false => exact ih sts hnot'
    | thrown msg => exact ih sts hnot'

/-- C9.  Disconnect atomicity: with pairwise distinct server names, a server
whose `disconnect()` throws or returns `false` keeps its stored status record
completely unchanged and lands in `failed` (with the message recorded on
throw); a server whose `disconnect()` succeeds gets exactly `connected`
flipped to `false` with every other stored field preserved and lands in
`disconnected`; and every name is processed: the `disconnected` and `failed`
lists partition the iteration list, so failures never stop the batch. -/
theorem disconnectAll_atomic :
    (∀ (servers : List (String × DiscOutcome))
        (sts : List (String × MCPServerStatus)) (name : String)
        (out : DiscOutcome) (st : MCPServerStatus),
      (servers.map Prod.fst).Nodup → (name, out) ∈ servers →
      mapGet sts name = some st →
      (out = .ok true →
        mapGet (disconnectAll servers sts).2 name =
          some { st with connected := false } ∧
        name ∈ (disconnectAll servers sts).1.disconnected) ∧
      (out = .ok false →
        mapGet (disconnectAll servers sts).2 name = some st ∧
        name ∈ (disconnectAll servers sts).1.failed) ∧
      (∀ m, out = .thrown m →
        mapGet (disconnectAll servers sts).2 name = some st ∧
        name ∈ (disconnectAll servers sts).1.failed ∧
        (name, m) ∈ (disconnectAll servers sts).1.errors)) ∧
    (∀ (servers : List (String × DiscOutcome))
        (sts : List (String × MCPServerStatus)) (n : String),
      ((disconnectAll servers sts).1.disconnected.count n) +
        ((disconnectAll servers sts).1.failed.count n) =
        ((servers.map Prod.fst).count n)) := by
  constructor
  · intro servers sts name out st hnd hmem hst
    induction servers generalizing sts with
    | nil => simp at hmem
    | cons hd tl ih =>
      obtain ⟨h, oh⟩ := hd
      simp only [List.map_cons, List.nodup_cons] at hnd
      obtain ⟨hh, hnd'⟩ := hnd
      rcases List.mem_cons.mp hmem with heq | htl
      · injection heq with e1 e2
        subst e1
        subst e2
        refine ⟨?_, ?_, ?_⟩
        · rintro rfl
          simp only [disconnectAll]
          constructor
          · rw [disconnectAll_statuses_unchanged tl _ name hh]
            rw [hst]
            simpa [markDisconnected] using mapGet_mapSet_self sts name _
          · exact List.mem_cons_self _ _
        · rintro rfl
          simp only [disconnectAll]
          refine ⟨?_, List.mem_cons_self _ _⟩
          rw [disconnectAll_statuses_unchanged tl sts name hh]
          exact hst
        · rintro m rfl
          simp only [disconnectAll]
          refine ⟨?_, List.mem_cons_self _ _, List.mem_cons_self _ _⟩
          rw [disconnectAll_statuses_unchanged tl sts name hh]
          exact hst
      · have hnm : name ∈ tl.map Prod.fst :=
          List.mem_map.mpr ⟨(name, out), htl, rfl⟩
        have hne : h ≠ name := fun hhn => hh (hhn ▸ hnm)
        cases oh with
        | ok b =>
          cases b with
          | true =>
            have hst1 : mapGet (mapSet sts h (markDisconnected (mapGet sts h)))
                name = some st := by
              rw [mapGet_mapSet_ne _ _ _ _ hne]
              exact hst
            have hrec := ih _ hnd' htl hst1
            simp only [disconnectAll]
            refine ⟨fun ho => ?_, fun ho => ?_, fun m ho => ?_⟩
            · exact ⟨(hrec.1 ho).1, List.mem_cons_of_mem _ (hrec.1 ho).2⟩
            · exact ⟨(hrec.2.1 ho).1, (hrec.2.1 ho).2⟩
            · exact ⟨(hrec.2.2 m ho).1, (hrec.2.2 m ho).2.1,
                (hrec.2.2 m ho).2.2⟩
          | false =>
            have hrec := ih sts hnd' htl hst
            simp only [disconnectAll]
            refine ⟨fun ho => ?_, fun ho => ?_, fun m ho => ?_⟩
            · exact ⟨(hrec.1 ho).1, (hrec.1 ho).2⟩
            · exact ⟨(hrec.2.1 ho).1, List.mem_cons_of_mem _ (hrec.2.1 ho).2⟩
            · exact ⟨(hrec.2.2 m ho).1,
                List.mem_cons_of_mem _ (hrec.2.2 m ho).2.1,
                (hrec.2.2 m ho).2.2⟩
        | thrown msg =>
          have hrec := ih sts hnd' htl hst
          simp only [disconnectAll]
          refine ⟨fun ho => ?_, fun ho => ?_, fun m ho => ?_⟩
          · exact ⟨(hrec.1 ho).1, (hrec.1 ho).2⟩
          · exact ⟨(hrec.2.1 ho).1, List.mem_cons_of_mem _ (hrec.2.1 ho).2⟩
          · exact ⟨(hrec.2.2 m ho).1,
              List.mem_cons_of_mem _ (hrec.2.2 m ho).2.1,
              List.mem_cons_of_mem _ (hrec.2.2 m ho).2.2⟩
  · intro servers sts n
    induction servers generalizing sts with
    | nil => rfl
    | cons hd tl ih =>
      obtain ⟨h, oh⟩ := hd
      cases oh with
      | ok b =>
        cases b with
        | true =>
          have hrec := ih (mapSet sts h (markDisconnected (mapGet sts h)))
          by_cases hn : h = n <;>
            simp [disconnectAll, List.count_cons, hn] at hrec ⊢ <;> omega
        | false =>
          have hrec := ih sts
          by_cases hn : h = n <;>
            simp [disconnectAll, List.count_cons, hn] at hrec ⊢ <;> omega
      | thrown msg =>
        have hrec := ih sts
        by_cases hn : h = n <;>
          simp [disconnectAll, List.count_cons, hn] at hrec ⊢ <;> omega

/-- Witness for C9 at a concrete run: server `a` disconnects, `b` throws,
`c` reports failure; `b` and `c` keep their records, `a` only flips
`connected`. -/
theorem disconnectAll_atomic_witness :
    mapGet (disconnectAll
        [("a", .ok true), ("b", .thrown "boom"), ("c", .ok false)]
        [("a", ⟨"a", true, some ["x"], some 1, none⟩),
         ("b", ⟨"b", true, some ["y"], some 2, none⟩),
         ("c", ⟨"c", true, none, some 3, some "old"⟩)]).2 "b" =
      some ⟨"b", true, some ["y"], some 2, none⟩ ∧
    mapGet (disconnectAll
        [("a", .ok true), ("b", .thrown "boom"), ("c", .ok false)]
        [("a", ⟨"a", true, some ["x"], some 1, none⟩),
         ("b", ⟨"b", true, some ["y"], some 2, none⟩),
         ("c", ⟨"c", true, none, some 3, some "old"⟩)]).2 "a" =
      some ⟨"a", false, some ["x"], some 1, none⟩ ∧
    "b" ∈ (disconnectAll
        [("a", .ok true), ("b", .thrown "boom"), ("c", .ok false)]
        [("a", ⟨"a", true, some ["x"], some 1, none⟩),
         ("b", ⟨"b", true, some ["y"], some 2, none⟩),
         ("c", ⟨"c", true, none, some 3, some "old"⟩)]).1.failed := by
  obtain ⟨hmem, _⟩ := disconnectAll_atomic
  have hb := hmem [("a", .ok true), ("b", .thrown "boom"), ("c", .ok false)]
    [("a", ⟨"a", true, some ["x"], some 1, none⟩),
     ("b", ⟨"b", true, some ["y"], some 2, none⟩),
     ("c", ⟨"c", true, none, some 3, some "old"⟩)]
    "b" (.thrown "boom") ⟨"b", true, some ["y"], some 2, none⟩
    (by decide) (by decide) (by decide)
  have ha := hmem [("a", .ok true), ("b", .thrown "boom"), ("c", .ok false)]
    [("a", ⟨"a", true, some ["x"], some 1, none⟩),
     ("b", ⟨"b", true, some ["y"], some 2, none⟩),
     ("c", ⟨"c", true, none, some 3, some "old"⟩)]
    "a" (.ok true) ⟨"a", true, some ["x"], some 1, none⟩
    (by decide) (by decide) (by decide)
  exact ⟨(hb.2.2 "boom" rfl).1, (ha.1 rfl).1, (hb.2.2 "boom" rfl).2.1⟩

/-- `MCPServerManager.isServerConnected` (servers/index.ts 215-218):
`status?.connected || false`. -/
def isServerConnected (sts : List (String × MCPServerStatus))
    (name : String) : Bool :=
  match mapGet sts name with
  | some st => st.connected || false
  | none => false

/-- `MCPServerManager.getServerCapabilities` (servers/index.ts 249-252):
`status?.capabilities || []`. -/
def getServerCapabilities (sts : List (String × MCPServerStatus))
    (name : String) : List String :=
  match mapGet sts name with
  | some st => st.capabilities.getD []
  | none => []

/-- `MCPServerManager.disconnectServer` (servers/index.ts 166-185): an
unregistered name throws `Server '<name>' not found`; otherwise the
disconnect call runs — success rewrites the stored status, a `false` return
or a caught exception leaves it untouched and returns `false`. -/
def disconnectServer (servers : List (String × DiscOutcome))
    (sts : List (String × MCPServerStatus)) (name : String) :
    Except String (Bool × List (String × MCPServerStatus)) :=
  match mapGet servers name with
  | none => .error ("Server '" ++ name ++ "' not found")
  | some (.ok true) =>
    .ok (true, mapSet sts name (markDisconnected (mapGet sts name)))
  | some (.ok false) => .ok (false, sts)
  | some (.thrown _) => .ok (false, sts)

/-- C10.  Read-only lookups are total on arbitrary names: with no stored
status, `isServerConnected` is `false`, `getServerCapabilities` is `[]` and
`getServerStatus` is `none` (none of them can throw — they are total
functions); the mutating operations `initializeServer` / `disconnectServer`
instead raise `Server '<name>' not found` for unregistered names. -/
theorem lookups_total (name : String)
    (sts : List (String × MCPServerStatus))
    (inits : List (String × InitOutcome))
    (servers : List (String × DiscOutcome)) (now : Nat) :
    (mapGet sts name = none →
      isServerConnected sts name = false ∧
      getServerCapabilities sts name = [] ∧
      getServerStatus sts name = none) ∧
    (mapGet inits name = none →
      initializeServer inits sts now name =
        .error ("Server '" ++ name ++ "' not found")) ∧
    (mapGet servers name = none →
      disconnectServer servers sts name =
        .error ("Server '" ++ name ++ "' not found")) := by
  refine ⟨fun h => ?_, fun h => ?_, fun h => ?_⟩
  · exact ⟨by simp [isServerConnected, h], by simp [getServerCapabilities, h],
      by simp [getServerStatus, h]⟩
  · simp [initializeServer, h]
  · simp [disconnectServer, h]

/-- Witness for C10 at a never-registered name. -/
theorem lookups_total_witness :
    isServerConnected [] "nope" = false ∧
    getServerCapabilities [] "nope" = [] ∧
    getServerStatus [] "nope" = none ∧
    initializeServer [] [] 0 "nope" = .error "Server 'nope' not found" ∧
    disconnectServer [] [] "nope" = .error "Server 'nope' not found" := by
  obtain ⟨h1, h2, h3⟩ := lookups_total "nope" [] [] [] 0
  obtain ⟨ha, hb, hc⟩ := h1 (by rfl)
  exact ⟨ha, hb, hc, h2 (by rfl), h3 (by rfl)⟩

end AgentsWS
